import Mathlib

/-!
Verification of the movie ingestion-and-classification pipeline:
a shallow embedding of `api_handlers/omdb_handler.py`,
`classifier/movie_classifier.py` and `database/movie_database.py`,
together with theorems settling the spec's claims about them.

The network call in `OMDbHandler.search_movie` is external: its outcome is
modelled as an `Option OmdbResponse` argument (`none` covers every failure
path — transport error, timeout, non-2xx, and a provider-reported
"not found" — since `search_movie` collapses all of them to `None`).
Python string/dict operations are embedded as structural recursions over
`List Char` so that every definition evaluates by kernel reduction.
-/

/-! ### Python string primitives -/

/-- Python `str.split(sep)` for a one-character separator `sep`,
scanning left to right. -/
def splitOnChar (c : Char) : List Char → List (List Char)
  | [] => [[]]
  | x :: xs =>
    match splitOnChar c xs with
    | [] => [[x]]
    | t :: ts => if x = c then [] :: t :: ts else (x :: t) :: ts

/-- Python `str.split(', ')`: split on the two-character separator `", "`,
scanning left to right (first match wins, non-overlapping). -/
def splitCommaSpaceAux : List Char → List (List Char)
  | [] => [[]]
  | ',' :: ' ' :: xs => [] :: splitCommaSpaceAux xs
  | x :: xs =>
    match splitCommaSpaceAux xs with
    | [] => [[x]]
    | t :: ts => (x :: t) :: ts

/-- `"a, b".split(', ')` as used on the provider's `Genre` string. -/
def splitCommaSpace (s : String) : List String :=
  (splitCommaSpaceAux s.data).map String.mk

/-- Python `str.replace('–', '')`: drop every en dash (U+2013). -/
def removeEnDashes (s : String) : String :=
  String.mk (s.data.filter (fun c => c ≠ '–'))

/-- Python `str.replace(',', '')`: drop every comma (used on vote counts). -/
def removeCommas (s : String) : String :=
  String.mk (s.data.filter (fun c => c ≠ ','))

/-- Python `str.strip()`: drop leading and trailing whitespace.
(`Char.isWhitespace` covers space, tab, CR, LF; Python additionally strips
`\v`/`\f`, which no claim exercises.) -/
def pyStrip (s : String) : String :=
  String.mk (((s.data.dropWhile (fun c => c.isWhitespace)).reverse.dropWhile
    (fun c => c.isWhitespace)).reverse)

/-- Truthiness of `d.get(key)` for an optional string: `False` for a missing
key and for the empty string. -/
def optTruthy : Option String → Bool
  | none => false
  | some s => s != ""

/-! ### Python `float()` on the decimal literals the provider emits -/

def charDigit (c : Char) : Nat := c.toNat - 48

def digitsVal (l : List Char) : Nat :=
  l.foldl (fun a c => a * 10 + charDigit c) 0

/-- Parse `digits`, `digits.digits`, `.digits` or `digits.` exactly, as the
rational value Python's `float()` denotes on such a literal (ratings are
strings like `"7.4"`; anything else — e.g. `"N/A"` — makes `float()` raise,
modelled as `none`). -/
def parseDecimalCore (l : List Char) : Option ℚ :=
  let intPart := l.takeWhile (fun c => c.isDigit)
  let rest := l.dropWhile (fun c => c.isDigit)
  match rest with
  | [] => if intPart.isEmpty then none else some (digitsVal intPart)
  | '.' :: fr =>
    if fr.all (fun c => c.isDigit) && (!intPart.isEmpty || !fr.isEmpty) then
      some ((digitsVal intPart : ℚ) + (digitsVal fr : ℚ) / (10 ^ fr.length))
    else none
  | _ => none

/-- Python `float(s)` for an optionally negated decimal literal. -/
def parseDecimal (s : String) : Option ℚ :=
  match s.data with
  | '-' :: r => (parseDecimalCore r).map (fun q => -q)
  | r => parseDecimalCore r

/-! ### `api_handlers/omdb_handler.py` — the provider response and
`OMDbHandler.get_movie_data` -/

/-- The flat field set of a successful OMDb response (`Response == 'True'`),
each field optional since the handler reads every one with `.get`. -/
structure OmdbResponse where
  Title : Option String
  Genre : Option String
  Year : Option String
  Plot : Option String
  imdbRating : Option String
  imdbVotes : Option String
  Director : Option String
  Actors : Option String
  Runtime : Option String
  BoxOffice : Option String
  Poster : Option String
  Metascore : Option String
  imdbID : Option String
deriving DecidableEq

/-- The normalized movie record built by `OMDbHandler.get_movie_data`.
Every code path assigns all of these keys, so a fixed-field structure is a
faithful rendering of the Python dict.  `omdb` holds the raw payload
(`movie_data['omdb']`), present exactly on the found path. -/
structure MovieRecord where
  omdb : Option OmdbResponse
  title : String
  genres : List String
  year : String
  overview : String
  rating : Option String
  votes : String
  director : String
  actors : String
  runtime : String
  box_office : String
  poster : String
  metascore : String
  imdb_id : String
  omdb_link : String
  source : String
deriving DecidableEq

/-- Line 48 of `omdb_handler.py`:
`omdb_data.get('Year', 'Unknown').replace('–', '').split('–')[0]`.
Both the replace and the split use the same en dash, so the replace removes
every occurrence before the split runs. -/
def normalizeYear (y : Option String) : String :=
  ((splitOnChar '–' (removeEnDashes (y.getD "Unknown")).data).map String.mk).headD ""

/-- `OMDbHandler.get_movie_data(movie_title)`, with the `search_movie`
outcome passed in as `omdb_data` (`none` = lookup failed or no match). -/
def get_movie_data (movie_title : String) (omdb_data : Option OmdbResponse) :
    MovieRecord :=
  match omdb_data with
  | some d =>
    { omdb := some d
      title := d.Title.getD movie_title
      genres := if optTruthy d.Genre then splitCommaSpace (d.Genre.getD "") else []
      year := normalizeYear d.Year
      overview := d.Plot.getD ""
      rating := d.imdbRating
      votes := removeCommas (d.imdbVotes.getD "0")
      director := d.Director.getD "Unknown"
      actors := d.Actors.getD "Unknown"
      runtime := d.Runtime.getD "Unknown"
      box_office := d.BoxOffice.getD "Unknown"
      poster := d.Poster.getD ""
      metascore := d.Metascore.getD "N/A"
      imdb_id := d.imdbID.getD ""
      omdb_link :=
        if optTruthy d.imdbID then "https://www.imdb.com/title/" ++ d.imdbID.getD ""
        else ""
      source := "OMDb" }
  | none =>
    { omdb := none
      title := movie_title
      genres := ["Unknown"]
      year := "Unknown"
      overview := "No information available"
      rating := none
      votes := "0"
      director := "Unknown"
      actors := "Unknown"
      runtime := "Unknown"
      box_office := "Unknown"
      poster := ""
      metascore := "N/A"
      imdb_id := ""
      omdb_link := ""
      source := "Not Found" }

/-! ### `database/movie_database.py` — Catalog Store

SQLite is modelled by its documented semantics: the `movies` table is a row
list plus the next `AUTOINCREMENT` rowid; `INSERT OR REPLACE` under
`UNIQUE(title, year)` deletes every conflicting row and appends a fresh row
with a fresh id; a plain `INSERT` hitting `UNIQUE(watchlist_id, movie_id)`
raises `IntegrityError`, which `add_to_watchlist` catches (the transaction
is never committed, so the store is unchanged).  `date_added`/`added_date`
timestamps are not modelled: no claim reads them. -/

/-- One row of the `movies` table. -/
structure MovieRow where
  id : Nat
  title : String
  year : String
  genres : String
  rating : ℚ
  director : String
  actors : String
  runtime : String
  overview : String
  poster_url : String
  imdb_id : String
deriving DecidableEq

/-- The `movies` table: rows in rowid order plus the next rowid. -/
structure MoviesTable where
  rows : List MovieRow
  nextId : Nat
deriving DecidableEq

/-- Python `', '.join(genres)`. -/
def joinCommaSpace : List String → String
  | [] => ""
  | [s] => s
  | s :: rest => s ++ ", " ++ joinCommaSpace rest

/-- Truthiness test used on the rating slot:
`movie_data.get('rating') and movie_data.get('rating') != 'N/A'`. -/
def ratingTruthy : Option String → Bool
  | none => false
  | some s => s != "" && s != "N/A"

/-- The `rating` column value of `add_movie`:
`float(movie_data.get('rating', 0)) if movie_data.get('rating') and
movie_data.get('rating') != 'N/A' else 0`.
`none` models the `ValueError` that `float` raises on a non-numeric,
non-`'N/A'` rating (caught by `add_movie`'s `except`, which reports the
error and returns `None` without writing). -/
def sqlRating (r : Option String) : Option ℚ :=
  if ratingTruthy r then parseDecimal (r.getD "") else some 0

/-- The row `add_movie` writes for record `m` under rowid `nid`. -/
def rowOf (nid : Nat) (m : MovieRecord) (rv : ℚ) : MovieRow :=
  { id := nid
    title := m.title
    year := m.year
    genres := joinCommaSpace m.genres
    rating := rv
    director := m.director
    actors := m.actors
    runtime := m.runtime
    overview := m.overview
    poster_url := m.poster
    imdb_id := m.imdb_id }

/-- `MovieDatabase.add_movie`: `INSERT OR REPLACE` keyed on
`UNIQUE(title, year)`; returns `cursor.lastrowid` on success and `None`
when the write fails (here: the `float()` call raising). -/
def add_movie (db : MoviesTable) (m : MovieRecord) : Option Nat × MoviesTable :=
  match sqlRating m.rating with
  | none => (none, db)
  | some rv =>
    let kept := db.rows.filter (fun r => !(r.title == m.title && r.year == m.year))
    (some db.nextId, ⟨kept ++ [rowOf db.nextId m rv], db.nextId + 1⟩)

/-- One row of the `watchlist_items` table. -/
structure WatchlistItemRow where
  id : Nat
  watchlist_id : Nat
  movie_id : Nat
deriving DecidableEq

/-- The `watchlist_items` table. -/
structure WatchlistItemsTable where
  rows : List WatchlistItemRow
  nextId : Nat
deriving DecidableEq

/-- `MovieDatabase.add_to_watchlist`: plain `INSERT`; a duplicate
`(watchlist_id, movie_id)` violates the `UNIQUE` constraint, the raised
`IntegrityError` is caught, a warning is shown and `False` is returned with
the table untouched. -/
def add_to_watchlist (db : WatchlistItemsTable) (w m : Nat) :
    Bool × WatchlistItemsTable :=
  if db.rows.any (fun r => r.watchlist_id == w && r.movie_id == m) then
    (false, db)
  else
    (true, ⟨db.rows ++ [⟨db.nextId, w, m⟩], db.nextId + 1⟩)

/-- Number of `watchlist_items` rows for a given (watchlist, movie) pair. -/
def membershipCount (db : WatchlistItemsTable) (w m : Nat) : Nat :=
  db.rows.countP (fun r => r.watchlist_id == w && r.movie_id == m)

/-! ### `classifier/movie_classifier.py` — `MovieGenreClassifier.classify_movies`

The per-iteration effects of the loop (progress callback, outbound lookup,
append to `processed_movies`, conditional `add_movie`) are recorded as an
event trace, alongside the returned data: the processed-record list and the
genre map.  The trace models a run in which a `progress_callback` was
supplied (when it is `None`, simply no `progress` events occur); the
`time.sleep(0.2)` pacing delay has no observable effect on state and emits
no event. -/

/-- `self.default_genres` — the keys of the `classified_movies` dict. -/
def default_genres : List String :=
  ["Action", "Adventure", "Animation", "Comedy", "Crime",
   "Documentary", "Drama", "Family", "Fantasy", "History",
   "Horror", "Music", "Mystery", "Romance", "Science Fiction",
   "Thriller", "War", "Western", "Unknown"]

/-- One observable effect of the `classify_movies` loop. -/
inductive Event where
  /-- `progress_callback(i + 1, total_movies)` -/
  | progress (current total : Nat)
  /-- the outbound OMDb request for the stripped title,
  issued inside `get_movie_data` -/
  | lookup (title : String)
  /-- `self.processed_movies.append(movie_data)` -/
  | appended (m : MovieRecord)
  /-- `self.database.add_movie(movie_data)` -/
  | persisted (m : MovieRecord)
deriving DecidableEq

/-- The genre map `classified_movies`, as a total function defaulting to
`[]`; its meaningful keys are exactly `default_genres`, and the Python
membership test `genre in classified_movies` is rendered as
`g ∈ default_genres` (the key set never changes during the loop). -/
def GenreMap := String → List MovieRecord

/-- `classified_movies[g].append(m)`. -/
def appendBucket (cm : GenreMap) (g : String) (m : MovieRecord) : GenreMap :=
  fun k => if k = g then cm k ++ [m] else cm k

/-- Lines 54–63 of `movie_classifier.py`: file one record into genre
buckets.  Empty genre list or exactly `['Unknown']` goes to the `'Unknown'`
bucket; otherwise each listed genre goes to its own bucket when recognized
and to `'Unknown'` when not. -/
def bucketStep (cm : GenreMap) (m : MovieRecord) : GenreMap :=
  if m.genres.isEmpty || m.genres == ["Unknown"] then
    appendBucket cm "Unknown" m
  else
    m.genres.foldl
      (fun acc g =>
        if g ∈ default_genres then appendBucket acc g m
        else appendBucket acc "Unknown" m)
      cm

/-- The loop state of `classify_movies`: the event trace so far,
`self.processed_movies`, and `classified_movies`. -/
structure ClassifyState where
  events : List Event
  processed : List MovieRecord
  buckets : GenreMap

/-- The events of iteration `i` on `title` (0-based `i`, as in
`enumerate`): callback first, then the lookup, the append, and — only when
the record was found — the database write. -/
def stepEvents (provider : String → Option OmdbResponse) (total i : Nat)
    (title : String) : List Event :=
  let t := pyStrip title
  let m := get_movie_data t (provider t)
  [Event.progress (i + 1) total, Event.lookup t, Event.appended m] ++
    (if m.source != "Not Found" then [Event.persisted m] else [])

/-- The `for i, title in enumerate(movie_titles)` loop. -/
def classifyLoop (provider : String → Option OmdbResponse) (total : Nat) :
    Nat → ClassifyState → List String → ClassifyState
  | _, st, [] => st
  | i, st, title :: rest =>
    let m := get_movie_data (pyStrip title) (provider (pyStrip title))
    classifyLoop provider total (i + 1)
      { events := st.events ++ stepEvents provider total i title
        processed := st.processed ++ [m]
        buckets := bucketStep st.buckets m }
      rest

/-- `MovieGenreClassifier.classify_movies(movie_titles, progress_callback)`:
starts from fresh state (`classified_movies = {genre: [] for genre in
self.default_genres}`, `self.processed_movies = []`) and runs the loop. -/
def classify_movies (provider : String → Option OmdbResponse)
    (movie_titles : List String) : ClassifyState :=
  classifyLoop provider movie_titles.length 0 ⟨[], [], fun _ => []⟩ movie_titles

/-- Number of `lookup` events in a trace. -/
def countLookups (tr : List Event) : Nat :=
  tr.countP (fun e => match e with | Event.lookup _ => true | _ => false)

/-! ### `classifier/movie_classifier.py` — `MovieGenreClassifier.get_statistics`

The source computes genre counts, the rating list and the rating histogram
in one pass over `self.processed_movies`; the three components of that loop
state are independent, so they are rendered as three folds over the same
list in the same order. -/

/-- The `rating_categories` dict; fields in key order:
`'Excellent (9-10)'`, `'Good (7-8.9)'`, `'Average (5-6.9)'`,
`'Poor (3-4.9)'`, `'Bad (0-2.9)'`. -/
structure RatingCats where
  excellent : Nat
  good : Nat
  average : Nat
  poor : Nat
  bad : Nat
deriving DecidableEq

/-- The rating a record contributes to the statistics, if any: lines 92–95,
`if movie.get('source') != 'Not Found' and movie.get('rating') and
movie.get('rating') != 'N/A': rating = float(movie.get('rating'))`, with
the surrounding `try`/`except: pass` turning an unparseable rating into no
contribution. -/
def ratingOf (m : MovieRecord) : Option ℚ :=
  if m.source != "Not Found" && ratingTruthy m.rating then
    parseDecimal (m.rating.getD "")
  else none

/-- Lines 98–107: the five-way `if rating >= 9 / elif ... / else` chain. -/
def addRatingCats (c : RatingCats) (r : ℚ) : RatingCats :=
  if 9 ≤ r then { c with excellent := c.excellent + 1 }
  else if 7 ≤ r then { c with good := c.good + 1 }
  else if 5 ≤ r then { c with average := c.average + 1 }
  else if 3 ≤ r then { c with poor := c.poor + 1 }
  else { c with bad := c.bad + 1 }

/-- The `genre_counts` dict (insertion-ordered association list). -/
def bumpGenre (gc : List (String × Nat)) (g : String) : List (String × Nat) :=
  if gc.any (fun p => p.1 == g) then
    gc.map (fun p => if p.1 == g then (p.1, p.2 + 1) else p)
  else gc ++ [(g, 1)]

/-- Python `round(x, 2)`.  (Python rounds half-to-even on floats; `round`
here rounds half away from even at exact half-cent ties, which no value in
the claims reaches.) -/
def round2 (x : ℚ) : ℚ := (round (x * 100) : ℤ) / 100

/-- The filter of line 115: found records with a truthy, non-`'N/A'`
rating. -/
def ratedFilter (m : MovieRecord) : Bool :=
  ratingTruthy m.rating && (m.source != "Not Found")

/-- Stable descending sort by rating value — Python
`sorted(rated_movies, key=lambda x: float(x.get('rating', 0)),
reverse=True)`. -/
def insertByRatingDesc (m : MovieRecord) : List MovieRecord → List MovieRecord
  | [] => [m]
  | b :: bs =>
    if (parseDecimal (b.rating.getD "0")).getD 0 ≤
        (parseDecimal (m.rating.getD "0")).getD 0 then m :: b :: bs
    else b :: insertByRatingDesc m bs

def sortByRatingDesc : List MovieRecord → List MovieRecord
  | [] => []
  | m :: rest => insertByRatingDesc m (sortByRatingDesc rest)

/-- The statistics dict returned by `get_statistics`. -/
structure Stats where
  total_movies : Nat
  found_movies : Nat
  not_found_movies : Nat
  unknown_genres : Nat
  genre_counts : List (String × Nat)
  success_rate : ℚ
  average_rating : ℚ
  rating_data : List ℚ
  rating_categories : RatingCats
  top_rated_movies : List MovieRecord
  total_ratings : Nat

/-- The uncaught `ValueError` of line 116: some rated record's rating is
not a decimal literal, so the top-rated sort key's unguarded `float()`
raises. -/
def topRatedCrash (processed : List MovieRecord) : Bool :=
  (processed.filter ratedFilter).any
    (fun m => (parseDecimal (m.rating.getD "0")).isNone)

/-- The statistics dict as built on the non-empty, non-crashing path. -/
def mkStats (processed : List MovieRecord) : Stats :=
  let rating_data := processed.filterMap ratingOf
  let total := processed.length
  let found := (processed.filter (fun m => m.source != "Not Found")).length
  let avg : ℚ :=
    if rating_data.isEmpty then 0 else rating_data.sum / rating_data.length
  { total_movies := total
    found_movies := found
    not_found_movies := total - found
    unknown_genres :=
      (processed.filter
        (fun m => m.genres.isEmpty || m.genres == ["Unknown"])).length
    genre_counts :=
      processed.foldl (fun gc m => m.genres.foldl bumpGenre gc) []
    success_rate := if 0 < total then (found : ℚ) / total * 100 else 0
    average_rating := if avg = 0 then 0 else round2 avg
    rating_data := rating_data
    rating_categories :=
      rating_data.foldl addRatingCats ⟨0, 0, 0, 0, 0⟩
    top_rated_movies := (sortByRatingDesc (processed.filter ratedFilter)).take 5
    total_ratings := rating_data.length }

/-- `MovieGenreClassifier.get_statistics()`, over the most recent batch's
record list.  `none` renders the two no-result outcomes: the early
`return {}` when `self.processed_movies` is empty, and the uncaught
`ValueError` of the top-rated sort (`topRatedCrash`). -/
def getStatistics (processed : List MovieRecord) : Option Stats :=
  if processed.isEmpty then none
  else if topRatedCrash processed then none
  else some (mkStats processed)

/-! ### Claims C2 and C3 — provider normalization -/

/-- C2: for every title whose provider lookup fails (transport error,
timeout, non-2xx) or returns no match — all of which `search_movie`
collapses to `None` — `get_movie_data` returns the record with
source `'Not Found'` and exactly the fixed placeholder field values;
moreover a record with source `'Not Found'` arises only on that path, so a
not-found record is never partially populated. -/
theorem get_movie_data_not_found_placeholder :
    ∀ (title : String) (resp : Option OmdbResponse),
      (resp = none →
        get_movie_data title resp =
          { omdb := none, title := title, genres := ["Unknown"],
            year := "Unknown", overview := "No information available",
            rating := none, votes := "0", director := "Unknown",
            actors := "Unknown", runtime := "Unknown",
            box_office := "Unknown", poster := "", metascore := "N/A",
            imdb_id := "", omdb_link := "", source := "Not Found" }) ∧
      ((get_movie_data title resp).source = "Not Found" ↔ resp = none) := by
  intro title resp
  constructor
  · rintro rfl
    rfl
  · cases resp with
    | none => simp [get_movie_data]
    | some d => simp [get_movie_data]

/-- Witness for C2 at the concrete title `"The Matrix"`. -/
theorem get_movie_data_not_found_placeholder_witness :
    get_movie_data "The Matrix" none =
      { omdb := none, title := "The Matrix", genres := ["Unknown"],
        year := "Unknown", overview := "No information available",
        rating := none, votes := "0", director := "Unknown",
        actors := "Unknown", runtime := "Unknown",
        box_office := "Unknown", poster := "", metascore := "N/A",
        imdb_id := "", omdb_link := "", source := "Not Found" } ∧
    ((get_movie_data "The Matrix" none).source = "Not Found" ↔
      (none : Option OmdbResponse) = none) :=
  ⟨(get_movie_data_not_found_placeholder "The Matrix" none).1 rfl,
   (get_movie_data_not_found_placeholder "The Matrix" none).2⟩

/-- A successful provider response whose `Year` is the range
`"2010–2012"`. -/
def rangeYearResponse : OmdbResponse :=
  { Title := some "The Bridge", Genre := some "Crime, Drama",
    Year := some "2010–2012", Plot := some "A body on a bridge.",
    imdbRating := some "7.6", imdbVotes := some "1,234",
    Director := some "D", Actors := some "A", Runtime := some "60 min",
    BoxOffice := some "N/A", Poster := some "", Metascore := some "N/A",
    imdbID := some "tt1733785" }

/-- C3 (code bug): the claimed normalization `"2010–2012" ↦ "2010"` fails.
`omdb_handler.py:48` first runs `.replace('–', '')`, which removes every en
dash, and only then `.split('–')[0]`, which is therefore a no-op: the year
range collapses to the concatenation `"20102012"`, not to its first
component.  The single-year and missing-year cases do behave as claimed. -/
theorem year_range_normalization_bug :
    (get_movie_data "The Bridge" (some rangeYearResponse)).year = "20102012" ∧
    (get_movie_data "The Bridge" (some rangeYearResponse)).year ≠ "2010" ∧
    normalizeYear (some "2010–2012") = "20102012" ∧
    normalizeYear (some "2010") = "2010" ∧
    normalizeYear none = "Unknown" := by
  refine ⟨rfl, by decide, rfl, rfl, rfl⟩

/-! ### Claims C7 and C8 — Catalog Store -/

/-- C7: upserting the same `(title, year)` pair twice leaves exactly one
row for that pair, holding entirely the second write's values, and the
second call returns that row's assigned id. -/
theorem add_movie_upsert_last_write_wins
    (db : MoviesTable) (m1 m2 : MovieRecord) (rv1 rv2 : ℚ)
    (ht : m2.title = m1.title) (hy : m2.year = m1.year)
    (h1 : sqlRating m1.rating = some rv1)
    (h2 : sqlRating m2.rating = some rv2) :
    ((add_movie (add_movie db m1).2 m2).2).rows.filter
        (fun r => r.title == m2.title && r.year == m2.year) =
      [rowOf (add_movie db m1).2.nextId m2 rv2] ∧
    (add_movie (add_movie db m1).2 m2).1 =
      some (add_movie db m1).2.nextId := by
  simp only [add_movie, h1, h2]
  constructor
  · simp only [List.filter_append, List.filter_filter]
    simp [rowOf]
    intro a _ hta hya hor
    cases hor with
    | inl q => exact absurd hta q
    | inr q => exact absurd hya q
  · trivial

/-- Witness for C7: two concrete records for the pair
`("Heat", "1995")` written into the empty table. -/
theorem add_movie_upsert_last_write_wins_witness :
    ((add_movie
        (add_movie ⟨[], 1⟩ { get_movie_data "Heat" none with year := "1995" }).2
        { get_movie_data "Heat" none with
            year := "1995", director := "Michael Mann" }).2).rows.filter
        (fun r =>
          r.title ==
              ({ get_movie_data "Heat" none with
                  year := "1995", director := "Michael Mann" } :
                MovieRecord).title &&
            r.year ==
              ({ get_movie_data "Heat" none with
                  year := "1995", director := "Michael Mann" } :
                MovieRecord).year) =
      [rowOf
        (add_movie ⟨[], 1⟩
          { get_movie_data "Heat" none with year := "1995" }).2.nextId
        { get_movie_data "Heat" none with
            year := "1995", director := "Michael Mann" } 0] ∧
    (add_movie
        (add_movie ⟨[], 1⟩ { get_movie_data "Heat" none with year := "1995" }).2
        { get_movie_data "Heat" none with
            year := "1995", director := "Michael Mann" }).1 =
      some (add_movie ⟨[], 1⟩
        { get_movie_data "Heat" none with year := "1995" }).2.nextId := by
  have h := add_movie_upsert_last_write_wins ⟨[], 1⟩
    { get_movie_data "Heat" none with year := "1995" }
    { get_movie_data "Heat" none with
        year := "1995", director := "Michael Mann" } 0 0 rfl rfl rfl rfl
  exact h

/-- C8: adding the same `(watchlist_id, movie_id)` pair twice — the second
call reports the conflict with `False` instead of raising, the store is
unchanged by the failed call, and the membership count stays exactly 1. -/
theorem add_to_watchlist_duplicate_conflict
    (db : WatchlistItemsTable) (w m : Nat)
    (h : membershipCount db w m = 0) :
    (add_to_watchlist db w m).1 = true ∧
    membershipCount (add_to_watchlist db w m).2 w m = 1 ∧
    (add_to_watchlist (add_to_watchlist db w m).2 w m).1 = false ∧
    (add_to_watchlist (add_to_watchlist db w m).2 w m).2 =
      (add_to_watchlist db w m).2 ∧
    membershipCount (add_to_watchlist (add_to_watchlist db w m).2 w m).2 w m
      = 1 := by
  have hall : ∀ r ∈ db.rows, ¬((r.watchlist_id == w && r.movie_id == m) = true) :=
    List.countP_eq_zero.mp h
  have hany : db.rows.any (fun r => r.watchlist_id == w && r.movie_id == m)
      = false := by
    rw [List.any_eq_false]
    exact hall
  have hall' : ∀ a ∈ db.rows, a.watchlist_id = w → ¬a.movie_id = m := by
    intro a ha hw hm
    exact hall a ha (by simp [hw, hm])
  refine ⟨?_, ?_, ?_, ?_, ?_⟩ <;>
    simp [add_to_watchlist, membershipCount, hany, List.countP_append, h,
      List.any_append] <;>
    exact hall'

/-- Witness for C8: watchlist 1, movie 2, starting from the empty
`watchlist_items` table. -/
theorem add_to_watchlist_duplicate_conflict_witness :
    (add_to_watchlist ⟨[], 1⟩ 1 2).1 = true ∧
    membershipCount (add_to_watchlist ⟨[], 1⟩ 1 2).2 1 2 = 1 ∧
    (add_to_watchlist (add_to_watchlist ⟨[], 1⟩ 1 2).2 1 2).1 = false ∧
    (add_to_watchlist (add_to_watchlist ⟨[], 1⟩ 1 2).2 1 2).2 =
      (add_to_watchlist ⟨[], 1⟩ 1 2).2 ∧
    membershipCount (add_to_watchlist (add_to_watchlist ⟨[], 1⟩ 1 2).2 1 2).2
      1 2 = 1 :=
  add_to_watchlist_duplicate_conflict ⟨[], 1⟩ 1 2 rfl

/-! ### Claim C1 — genre bucketing in `classify_movies` -/

/-- The record `classify_movies` computes for one input title. -/
def classifiedRecord (provider : String → Option OmdbResponse)
    (title : String) : MovieRecord :=
  get_movie_data (pyStrip title) (provider (pyStrip title))

theorem mem_appendBucket_self (cm : GenreMap) (g : String) (m : MovieRecord) :
    m ∈ appendBucket cm g m g := by
  simp [appendBucket]

theorem mem_appendBucket_of_mem {cm : GenreMap} {k : String} {x : MovieRecord}
    (g : String) (m : MovieRecord) (hx : x ∈ cm k) :
    x ∈ appendBucket cm g m k := by
  unfold appendBucket
  split
  · exact List.mem_append_left _ hx
  · exact hx

theorem foldl_bucket_mem_mono (m : MovieRecord) :
    ∀ (gs : List String) (cm : GenreMap) (k : String) (x : MovieRecord),
      x ∈ cm k →
      x ∈ (gs.foldl
        (fun acc g =>
          if g ∈ default_genres then appendBucket acc g m
          else appendBucket acc "Unknown" m) cm) k
  | [], _, _, _, hx => hx
  | g :: gs, cm, k, x, hx => by
    simp only [List.foldl_cons]
    apply foldl_bucket_mem_mono m gs
    split
    · exact mem_appendBucket_of_mem _ _ hx
    · exact mem_appendBucket_of_mem _ _ hx

theorem bucketStep_mem_mono {cm : GenreMap} {k : String} {x m : MovieRecord}
    (hx : x ∈ cm k) : x ∈ bucketStep cm m k := by
  unfold bucketStep
  split
  · exact mem_appendBucket_of_mem _ _ hx
  · exact foldl_bucket_mem_mono m m.genres cm k x hx

theorem foldl_bucket_mem_target (m : MovieRecord) :
    ∀ (gs : List String) (cm : GenreMap) (g : String), g ∈ gs →
      (g ∈ default_genres →
        m ∈ (gs.foldl
          (fun acc g' =>
            if g' ∈ default_genres then appendBucket acc g' m
            else appendBucket acc "Unknown" m) cm) g) ∧
      (g ∉ default_genres →
        m ∈ (gs.foldl
          (fun acc g' =>
            if g' ∈ default_genres then appendBucket acc g' m
            else appendBucket acc "Unknown" m) cm) "Unknown")
  | g' :: gs, cm, g, hg => by
    simp only [List.foldl_cons]
    rcases List.mem_cons.mp hg with hEq | hTail
    · subst hEq
      constructor
      · intro hrec
        rw [if_pos hrec]
        exact foldl_bucket_mem_mono m gs _ _ _ (mem_appendBucket_self cm g m)
      · intro hrec
        rw [if_neg hrec]
        exact foldl_bucket_mem_mono m gs _ _ _
          (mem_appendBucket_self cm "Unknown" m)
    · exact foldl_bucket_mem_target m gs _ g hTail

/-- The per-record bucketing facts: `bucketStep` files `m` as lines 54–63
do. -/
theorem bucketStep_files (cm : GenreMap) (m : MovieRecord) :
    ((m.genres = [] ∨ m.genres = ["Unknown"]) →
      m ∈ bucketStep cm m "Unknown") ∧
    ∀ g ∈ m.genres,
      (g ∈ default_genres → m ∈ bucketStep cm m g) ∧
      (g ∉ default_genres → m ∈ bucketStep cm m "Unknown") := by
  unfold bucketStep
  by_cases hc : (m.genres.isEmpty || m.genres == ["Unknown"]) = true
  · rw [if_pos hc]
    constructor
    · intro _
      exact mem_appendBucket_self cm "Unknown" m
    · intro g hg
      rcases Bool.or_eq_true _ _ |>.mp hc with he | hu
      · simp [List.isEmpty_iff.mp he] at hg
      · have : m.genres = ["Unknown"] := by simpa using hu
        rw [this] at hg
        simp at hg
        subst hg
        constructor
        · intro _
          exact mem_appendBucket_self cm "Unknown" m
        · intro hno
          exact absurd (by decide : "Unknown" ∈ default_genres) hno
  · rw [if_neg hc]
    constructor
    · intro hor
      rcases hor with he | hu
      · exact absurd (by simp [he]) hc
      · exact absurd (by simp [hu]) hc
    · intro g hg
      exact foldl_bucket_mem_target m m.genres cm g hg

theorem classifyLoop_filed (provider : String → Option OmdbResponse)
    (total : Nat) :
    ∀ (titles : List String) (i : Nat) (st : ClassifyState),
      (∀ m ∈ st.processed,
        ((m.genres = [] ∨ m.genres = ["Unknown"]) →
          m ∈ st.buckets "Unknown") ∧
        ∀ g ∈ m.genres,
          (g ∈ default_genres → m ∈ st.buckets g) ∧
          (g ∉ default_genres → m ∈ st.buckets "Unknown")) →
      ∀ m ∈ (classifyLoop provider total i st titles).processed,
        ((m.genres = [] ∨ m.genres = ["Unknown"]) →
          m ∈ (classifyLoop provider total i st titles).buckets "Unknown") ∧
        ∀ g ∈ m.genres,
          (g ∈ default_genres →
            m ∈ (classifyLoop provider total i st titles).buckets g) ∧
          (g ∉ default_genres →
            m ∈ (classifyLoop provider total i st titles).buckets "Unknown")
  | [], _, _, h => h
  | title :: rest, i, st, h => by
    rw [classifyLoop]
    apply classifyLoop_filed provider total rest (i + 1)
    intro m hm
    rcases List.mem_append.mp hm with hOld | hNew
    · have hf := h m hOld
      exact ⟨fun hor => bucketStep_mem_mono (hf.1 hor),
        fun g hg =>
          ⟨fun hrec => bucketStep_mem_mono ((hf.2 g hg).1 hrec),
           fun hno => bucketStep_mem_mono ((hf.2 g hg).2 hno)⟩⟩
    · have hm' : m = get_movie_data (pyStrip title) (provider (pyStrip title)) := by
        simpa using hNew
      subst hm'
      exact bucketStep_files st.buckets _

/-- C1: every record produced by `classify_movies` is filed into every
recognized genre bucket named in its genre list; a record whose genre list
is empty or exactly `['Unknown']` is filed into the `'Unknown'` bucket; and
each unrecognized genre name makes the record fall back to the `'Unknown'`
bucket. -/
theorem classify_movies_files_into_genre_buckets
    (provider : String → Option OmdbResponse) (titles : List String) :
    ∀ m ∈ (classify_movies provider titles).processed,
      ((m.genres = [] ∨ m.genres = ["Unknown"]) →
        m ∈ (classify_movies provider titles).buckets "Unknown") ∧
      ∀ g ∈ m.genres,
        (g ∈ default_genres →
          m ∈ (classify_movies provider titles).buckets g) ∧
        (g ∉ default_genres →
          m ∈ (classify_movies provider titles).buckets "Unknown") := by
  apply classifyLoop_filed
  intro m hm
  simp at hm

/-- A concrete provider for witnesses: it finds `"The Matrix"` with one
recognized and one unrecognized genre, and nothing else. -/
def matrixResponse : OmdbResponse :=
  { Title := some "The Matrix", Genre := some "Action, Sci-Fi",
    Year := some "1999", Plot := some "A hacker learns the truth.",
    imdbRating := some "8.7", imdbVotes := some "1,800,000",
    Director := some "Lana Wachowski, Lilly Wachowski",
    Actors := some "Keanu Reeves", Runtime := some "136 min",
    BoxOffice := some "$171,479,930", Poster := some "",
    Metascore := some "73", imdbID := some "tt0133093" }

def demoProvider : String → Option OmdbResponse :=
  fun t => if t = "The Matrix" then some matrixResponse else none

/-- Witness for C1 on the batch `["The Matrix", "Zzznonexistentmovie123"]`:
the found record lands in its recognized bucket `"Action"` and falls back
to `"Unknown"` for the unrecognized name `"Sci-Fi"`; the not-found record
(genre list exactly `['Unknown']`) lands in `"Unknown"`. -/
theorem classify_movies_files_into_genre_buckets_witness :
    classifiedRecord demoProvider "The Matrix" ∈
      (classify_movies demoProvider
        ["The Matrix", "Zzznonexistentmovie123"]).buckets "Action" ∧
    classifiedRecord demoProvider "The Matrix" ∈
      (classify_movies demoProvider
        ["The Matrix", "Zzznonexistentmovie123"]).buckets "Unknown" ∧
    classifiedRecord demoProvider "Zzznonexistentmovie123" ∈
      (classify_movies demoProvider
        ["The Matrix", "Zzznonexistentmovie123"]).buckets "Unknown" := by
  have h1 := classify_movies_files_into_genre_buckets demoProvider
    ["The Matrix", "Zzznonexistentmovie123"]
    (classifiedRecord demoProvider "The Matrix") (by decide)
  have h2 := classify_movies_files_into_genre_buckets demoProvider
    ["The Matrix", "Zzznonexistentmovie123"]
    (classifiedRecord demoProvider "Zzznonexistentmovie123") (by decide)
  exact ⟨(h1.2 "Action" (by decide)).1 (by decide),
    (h1.2 "Sci-Fi" (by decide)).2 (by decide),
    h2.1 (by decide)⟩

/-! ### Claim C9 — persistence exactly for found records -/

theorem mem_stepEvents_persisted (provider : String → Option OmdbResponse)
    (total i : Nat) (title : String) (x : MovieRecord) :
    Event.persisted x ∈ stepEvents provider total i title ↔
      (x = get_movie_data (pyStrip title) (provider (pyStrip title)) ∧
        x.source ≠ "Not Found") := by
  by_cases hs : (get_movie_data (pyStrip title)
      (provider (pyStrip title))).source = "Not Found"
  · have hb : ((get_movie_data (pyStrip title)
        (provider (pyStrip title))).source != "Not Found") = false := by
      simp [hs]
    simp only [stepEvents, hb, Bool.false_eq_true, if_false]
    simp
    rintro rfl
    exact hs
  · have hb : ((get_movie_data (pyStrip title)
        (provider (pyStrip title))).source != "Not Found") = true :=
      bne_iff_ne.mpr hs
    simp only [stepEvents, hb, if_true]
    simp
    rintro rfl
    exact hs

theorem mem_stepEvents_appended (provider : String → Option OmdbResponse)
    (total i : Nat) (title : String) (x : MovieRecord) :
    Event.appended x ∈ stepEvents provider total i title ↔
      x = get_movie_data (pyStrip title) (provider (pyStrip title)) := by
  cases hb : ((get_movie_data (pyStrip title)
      (provider (pyStrip title))).source != "Not Found") <;>
    simp [stepEvents, hb]

theorem classifyLoop_persisted_iff (provider : String → Option OmdbResponse)
    (total : Nat) :
    ∀ (titles : List String) (i : Nat) (st : ClassifyState),
      (∀ x : MovieRecord,
        Event.persisted x ∈ st.events ↔
          (Event.appended x ∈ st.events ∧ x.source ≠ "Not Found")) →
      ∀ x : MovieRecord,
        Event.persisted x ∈ (classifyLoop provider total i st titles).events ↔
          (Event.appended x ∈ (classifyLoop provider total i st titles).events ∧
            x.source ≠ "Not Found")
  | [], _, _, h => h
  | title :: rest, i, st, h => by
    rw [classifyLoop]
    apply classifyLoop_persisted_iff provider total rest (i + 1)
    intro x
    simp only [List.mem_append]
    rw [mem_stepEvents_persisted, mem_stepEvents_appended, h x]
    constructor
    · rintro (⟨ha, hs⟩ | ⟨rfl, hs⟩)
      · exact ⟨Or.inl ha, hs⟩
      · exact ⟨Or.inr rfl, hs⟩
    · rintro ⟨ha | he, hs⟩
      · exact Or.inl ⟨ha, hs⟩
      · exact Or.inr ⟨he, hs⟩

/-- C9: in `classify_movies`, a record is written to the Catalog Store
(`add_movie`) exactly when it was appended to the batch list with a source
other than `'Not Found'`; placeholder records are appended but never
persisted. -/
theorem classify_movies_persists_iff_found
    (provider : String → Option OmdbResponse) (titles : List String)
    (x : MovieRecord) :
    Event.persisted x ∈ (classify_movies provider titles).events ↔
      (Event.appended x ∈ (classify_movies provider titles).events ∧
        x.source ≠ "Not Found") := by
  apply classifyLoop_persisted_iff
  intro y
  simp

/-! ### Claim C10 — fan-out of unrecognized genres into `'Unknown'` -/

theorem foldl_bucket_unrecognized (m : MovieRecord) :
    ∀ (gs : List String) (cm : GenreMap),
      (∀ g ∈ gs, g ∉ default_genres) →
      (gs.foldl
        (fun acc g =>
          if g ∈ default_genres then appendBucket acc g m
          else appendBucket acc "Unknown" m) cm) "Unknown"
        = cm "Unknown" ++ List.replicate gs.length m
  | [], cm, _ => by simp
  | g :: gs, cm, hall => by
    simp only [List.foldl_cons]
    rw [if_neg (hall g (List.mem_cons_self g gs))]
    rw [foldl_bucket_unrecognized m gs _
      (fun g' hg' => hall g' (List.mem_cons_of_mem g hg'))]
    simp [appendBucket, List.replicate_succ]

/-- C10: in `classify_movies`, a record whose genre list holds `k ≥ 2`
names all outside the recognized set is appended to the `'Unknown'` bucket
once per name — `k` occurrences of the same record — whereas a record with
an empty genre list or exactly `['Unknown']` appears there exactly once. -/
theorem classify_movies_unknown_fanout
    (provider : String → Option OmdbResponse) (title : String) :
    ((2 ≤ (classifiedRecord provider title).genres.length ∧
      ∀ g ∈ (classifiedRecord provider title).genres, g ∉ default_genres) →
      (classify_movies provider [title]).buckets "Unknown" =
        List.replicate (classifiedRecord provider title).genres.length
          (classifiedRecord provider title) ∧
      ((classify_movies provider [title]).buckets "Unknown").count
          (classifiedRecord provider title) =
        (classifiedRecord provider title).genres.length) ∧
    (((classifiedRecord provider title).genres = [] ∨
      (classifiedRecord provider title).genres = ["Unknown"]) →
      (classify_movies provider [title]).buckets "Unknown" =
        [classifiedRecord provider title]) := by
  have hb : (classify_movies provider [title]).buckets =
      bucketStep (fun _ => []) (classifiedRecord provider title) := rfl
  constructor
  · rintro ⟨hk, hall⟩
    have hne : ¬((classifiedRecord provider title).genres.isEmpty ||
        (classifiedRecord provider title).genres == ["Unknown"]) = true := by
      rcases h : (classifiedRecord provider title).genres with _ | ⟨a, _ | ⟨b, l⟩⟩
      · rw [h] at hk
        simp at hk
      · rw [h] at hk
        simp at hk
      · simp
    have hmain : (classify_movies provider [title]).buckets "Unknown" =
        List.replicate (classifiedRecord provider title).genres.length
          (classifiedRecord provider title) := by
      rw [hb]
      unfold bucketStep
      rw [if_neg hne]
      rw [foldl_bucket_unrecognized _ _ _ hall]
      simp
    exact ⟨hmain, by rw [hmain, List.count_replicate_self]⟩
  · intro hor
    have hc : ((classifiedRecord provider title).genres.isEmpty ||
        (classifiedRecord provider title).genres == ["Unknown"]) = true := by
      rcases hor with he | hu
      · simp [he]
      · simp [hu]
    rw [hb]
    unfold bucketStep
    rw [if_pos hc]
    simp [appendBucket]

/-- A provider answering every title with two unrecognized genres. -/
def fanoutProvider : String → Option OmdbResponse :=
  fun _ => some
    { Title := some "Blade Runner", Genre := some "Sci-Fi, Film-Noir",
      Year := some "1982", Plot := some "Replicants.",
      imdbRating := some "8.1", imdbVotes := some "800,000",
      Director := some "Ridley Scott", Actors := some "Harrison Ford",
      Runtime := some "117 min", BoxOffice := some "$32,914,489",
      Poster := some "", Metascore := some "84",
      imdbID := some "tt0083658" }

/-- Witness for C10: genre list `["Sci-Fi", "Film-Noir"]` (both
unrecognized, `k = 2`) puts the same record twice into `'Unknown'`. -/
theorem classify_movies_unknown_fanout_witness :
    (classify_movies fanoutProvider ["Blade Runner"]).buckets "Unknown" =
      List.replicate 2 (classifiedRecord fanoutProvider "Blade Runner") ∧
    ((classify_movies fanoutProvider ["Blade Runner"]).buckets "Unknown").count
        (classifiedRecord fanoutProvider "Blade Runner") = 2 :=
  (classify_movies_unknown_fanout fanoutProvider "Blade Runner").1
    ⟨by decide, by decide⟩

/-! ### Claim C6 — the progress callback's position in the loop -/

theorem countLookups_stepEvents (provider : String → Option OmdbResponse)
    (total i : Nat) (title : String) :
    countLookups (stepEvents provider total i title) = 1 := by
  cases hb : ((get_movie_data (pyStrip title)
      (provider (pyStrip title))).source != "Not Found") <;>
    simp [stepEvents, hb, countLookups]

theorem stepEvents_progress_pos (provider : String → Option OmdbResponse)
    (total i : Nat) (title : String) {n c t : Nat}
    (h : (stepEvents provider total i title)[n]? =
      some (Event.progress c t)) :
    n = 0 ∧ c = i + 1 ∧ t = total := by
  revert h
  cases hb : ((get_movie_data (pyStrip title)
      (provider (pyStrip title))).source != "Not Found") <;>
    simp only [stepEvents, hb, Bool.false_eq_true, if_false, if_true,
      List.append_nil] <;>
    (rcases n with _ | _ | _ | _ | n <;> intro h <;> simp_all)

theorem stepEvents_lookup_at_one (provider : String → Option OmdbResponse)
    (total i : Nat) (title : String) :
    (stepEvents provider total i title)[1]? =
      some (Event.lookup (pyStrip title)) := by
  cases hb : ((get_movie_data (pyStrip title)
      (provider (pyStrip title))).source != "Not Found") <;>
    simp [stepEvents, hb]

theorem classifyLoop_progress_spec (provider : String → Option OmdbResponse)
    (total : Nat) :
    ∀ (titles : List String) (i : Nat) (st : ClassifyState),
      countLookups st.events = i →
      (∀ n c t, st.events[n]? = some (Event.progress c t) →
        t = total ∧ countLookups (st.events.take n) = c - 1 ∧
        ∃ s, st.events[n + 1]? = some (Event.lookup s)) →
      countLookups (classifyLoop provider total i st titles).events =
          i + titles.length ∧
      ∀ n c t, (classifyLoop provider total i st titles).events[n]? =
          some (Event.progress c t) →
        t = total ∧
        countLookups
          ((classifyLoop provider total i st titles).events.take n) = c - 1 ∧
        ∃ s, (classifyLoop provider total i st titles).events[n + 1]? =
          some (Event.lookup s)
  | [], i, st, hcount, hprog => ⟨by simpa using hcount, hprog⟩
  | title :: rest, i, st, hcount, hprog => by
    rw [classifyLoop]
    have hcount' :
        countLookups (st.events ++ stepEvents provider total i title)
          = i + 1 := by
      unfold countLookups at hcount ⊢
      rw [List.countP_append, hcount]
      have := countLookups_stepEvents provider total i title
      unfold countLookups at this
      omega
    have hprog' : ∀ n c t,
        (st.events ++ stepEvents provider total i title)[n]? =
          some (Event.progress c t) →
        t = total ∧
        countLookups
          ((st.events ++ stepEvents provider total i title).take n) = c - 1 ∧
        ∃ s, (st.events ++ stepEvents provider total i title)[n + 1]? =
          some (Event.lookup s) := by
      intro n c t hn
      by_cases hlt : n < st.events.length
      · rw [List.getElem?_append_left hlt] at hn
        obtain ⟨ht, hcnt, s, hs⟩ := hprog n c t hn
        have hlt1 : n + 1 < st.events.length :=
          (List.getElem?_eq_some_iff.mp hs).1
        refine ⟨ht, ?_, ⟨s, ?_⟩⟩
        · rw [List.take_append_eq_append_take,
            Nat.sub_eq_zero_of_le (Nat.le_of_lt hlt), List.take_zero,
            List.append_nil]
          exact hcnt
        · rw [List.getElem?_append_left hlt1]
          exact hs
      · have hge : st.events.length ≤ n := Nat.le_of_not_lt hlt
        rw [List.getElem?_append_right hge] at hn
        obtain ⟨hz, hc, ht⟩ := stepEvents_progress_pos provider total i title hn
        have hn0 : n = st.events.length := by omega
        subst hn0
        refine ⟨ht.symm ▸ rfl, ?_, ?_⟩
        · rw [List.take_left]
          rw [hc, hcount]
          omega
        · refine ⟨pyStrip title, ?_⟩
          rw [List.getElem?_append_right (Nat.le_succ_of_le hge)]
          have : st.events.length + 1 - st.events.length = 1 := by omega
          rw [this]
          exact stepEvents_lookup_at_one provider total i title
    have ih := classifyLoop_progress_spec provider total rest (i + 1)
      { events := st.events ++ stepEvents provider total i title
        processed := st.processed ++
          [get_movie_data (pyStrip title) (provider (pyStrip title))]
        buckets := bucketStep st.buckets
          (get_movie_data (pyStrip title) (provider (pyStrip title))) }
      hcount' hprog'
    refine ⟨?_, ih.2⟩
    rw [ih.1]
    simp
    omega

/-- C6 (amended): in `classify_movies` the progress callback runs *before*
each lookup, not after it: whenever the trace reports `progress c total`,
the total is the input length, exactly `c - 1` lookups have completed at
that point, and the very next event is the lookup of the current title. -/
theorem classify_movies_progress_before_lookup
    (provider : String → Option OmdbResponse) (titles : List String)
    (n c t : Nat)
    (h : (classify_movies provider titles).events[n]? =
      some (Event.progress c t)) :
    t = titles.length ∧
    countLookups ((classify_movies provider titles).events.take n) = c - 1 ∧
    ∃ s, (classify_movies provider titles).events[n + 1]? =
      some (Event.lookup s) := by
  have := classifyLoop_progress_spec provider titles.length titles 0
    ⟨[], [], fun _ => []⟩ (by simp [countLookups]) (by intro n c t hn; simp at hn)
  exact this.2 n c t h

/-- Witness for C6 (amended): first callback of a one-title batch reports
`(1, 1)` with zero lookups completed, immediately followed by the lookup. -/
theorem classify_movies_progress_before_lookup_witness :
    (1 : Nat) = ([("A" : String)] : List String).length ∧
    countLookups ((classify_movies (fun _ => none) ["A"]).events.take 0) =
      1 - 1 ∧
    ∃ s, (classify_movies (fun _ => none) ["A"]).events[0 + 1]? =
      some (Event.lookup s) :=
  classify_movies_progress_before_lookup (fun _ => none) ["A"] 0 1 1 (by decide)

/-- C6 as stated is false: the callback is invoked *before* the lookup, so
when it reports current count 1 no lookup has completed yet.  Concretely,
for the one-title batch `["A"]` the trace's first event is already
`progress 1 1`, with zero lookup events before it. -/
theorem classify_movies_progress_after_lookup_counterexample :
    ¬ ∀ n c t,
        (classify_movies (fun _ => none) ["A"]).events[n]? =
            some (Event.progress c t) →
          countLookups
            ((classify_movies (fun _ => none) ["A"]).events.take n) = c := by
  intro hcl
  have h := hcl 0 1 1 (by decide)
  revert h
  decide

/-! ### Claims C4 and C5 — `get_statistics` -/

theorem getStatistics_eq_some {l : List MovieRecord}
    (h1 : l.isEmpty = false) (h2 : topRatedCrash l = false) :
    getStatistics l = some (mkStats l) := by
  unfold getStatistics
  rw [h1, h2]
  simp

theorem parseDecimal_9_0 : parseDecimal "9.0" = some 9 := by
  rw [show parseDecimal "9.0" =
    some (((9 : ℕ) : ℚ) + ((0 : ℕ) : ℚ) / 10 ^ 1) from rfl]
  norm_num

theorem parseDecimal_6_99 : parseDecimal "6.99" = some (699 / 100) := by
  rw [show parseDecimal "6.99" =
    some (((6 : ℕ) : ℚ) + ((99 : ℕ) : ℚ) / 10 ^ 2) from rfl]
  norm_num

theorem parseDecimal_0_0 : parseDecimal "0.0" = some 0 := by
  rw [show parseDecimal "0.0" =
    some (((0 : ℕ) : ℚ) + ((0 : ℕ) : ℚ) / 10 ^ 1) from rfl]
  norm_num

theorem addRatingCats_nine :
    addRatingCats ⟨0, 0, 0, 0, 0⟩ 9 = ⟨1, 0, 0, 0, 0⟩ := by
  unfold addRatingCats
  rw [if_pos (by norm_num)]

theorem addRatingCats_699_100 :
    addRatingCats ⟨0, 0, 0, 0, 0⟩ (699 / 100) = ⟨0, 0, 1, 0, 0⟩ := by
  unfold addRatingCats
  rw [if_neg (by norm_num), if_neg (by norm_num), if_pos (by norm_num)]

theorem addRatingCats_zero :
    addRatingCats ⟨0, 0, 0, 0, 0⟩ 0 = ⟨0, 0, 0, 0, 1⟩ := by
  unfold addRatingCats
  rw [if_neg (by norm_num), if_neg (by norm_num), if_neg (by norm_num),
    if_neg (by norm_num)]

/-- C4: the rating histogram's boundaries are inclusive below — a found
record rated exactly `"9.0"` lands in the `'Excellent (9-10)'` bucket and
`"6.99"` in `'Average (5-6.9)'` — and a genuine provider rating of `"0.0"`
*is* counted (truthy string), landing in `'Bad (0-2.9)'`; only an absent or
`'N/A'` rating is excluded from the rating statistics. -/
theorem getStatistics_rating_buckets (m : MovieRecord)
    (hs : m.source ≠ "Not Found") :
    (m.rating = some "9.0" → ∃ s, getStatistics [m] = some s ∧
      s.rating_categories = ⟨1, 0, 0, 0, 0⟩ ∧ s.rating_data = [9] ∧
      s.total_ratings = 1) ∧
    (m.rating = some "6.99" → ∃ s, getStatistics [m] = some s ∧
      s.rating_categories = ⟨0, 0, 1, 0, 0⟩ ∧ s.total_ratings = 1) ∧
    (m.rating = some "0.0" → ∃ s, getStatistics [m] = some s ∧
      s.rating_categories = ⟨0, 0, 0, 0, 1⟩ ∧ s.rating_data = [0] ∧
      s.total_ratings = 1) ∧
    ((m.rating = none ∨ m.rating = some "N/A") →
      ∃ s, getStatistics [m] = some s ∧
        s.rating_data = [] ∧ s.total_ratings = 0) := by
  have hb : (m.source != "Not Found") = true := bne_iff_ne.mpr hs
  refine ⟨?_, ?_, ?_, ?_⟩
  · intro hr
    have hof : ratingOf m = some 9 := by
      unfold ratingOf
      rw [hr, hb, show ratingTruthy (some "9.0") = true from rfl]
      simpa using parseDecimal_9_0
    have hrf : ratedFilter m = true := by
      unfold ratedFilter
      rw [hr, hb, show ratingTruthy (some "9.0") = true from rfl]
      rfl
    have hcr : topRatedCrash [m] = false := by
      unfold topRatedCrash
      simp [hrf, hr, parseDecimal_9_0]
    refine ⟨mkStats [m], getStatistics_eq_some rfl hcr, ?_, ?_, ?_⟩ <;>
      simp [mkStats, hof, addRatingCats_nine]
  · intro hr
    have hof : ratingOf m = some (699 / 100) := by
      unfold ratingOf
      rw [hr, hb, show ratingTruthy (some "6.99") = true from rfl]
      simpa using parseDecimal_6_99
    have hrf : ratedFilter m = true := by
      unfold ratedFilter
      rw [hr, hb, show ratingTruthy (some "6.99") = true from rfl]
      rfl
    have hcr : topRatedCrash [m] = false := by
      unfold topRatedCrash
      simp [hrf, hr, parseDecimal_6_99]
    refine ⟨mkStats [m], getStatistics_eq_some rfl hcr, ?_, ?_⟩ <;>
      simp [mkStats, hof, addRatingCats_699_100]
  · intro hr
    have hof : ratingOf m = some 0 := by
      unfold ratingOf
      rw [hr, hb, show ratingTruthy (some "0.0") = true from rfl]
      simpa using parseDecimal_0_0
    have hrf : ratedFilter m = true := by
      unfold ratedFilter
      rw [hr, hb, show ratingTruthy (some "0.0") = true from rfl]
      rfl
    have hcr : topRatedCrash [m] = false := by
      unfold topRatedCrash
      simp [hrf, hr, parseDecimal_0_0]
    refine ⟨mkStats [m], getStatistics_eq_some rfl hcr, ?_, ?_, ?_⟩ <;>
      simp [mkStats, hof, addRatingCats_zero]
  · intro hr
    have hrt : ratingTruthy m.rating = false := by
      rcases hr with hr | hr <;> rw [hr] <;> rfl
    have hof : ratingOf m = none := by
      unfold ratingOf
      rw [hrt]
      simp
    have hrf : ratedFilter m = false := by
      unfold ratedFilter
      rw [hrt]
      rfl
    have hcr : topRatedCrash [m] = false := by
      unfold topRatedCrash
      simp [hrf]
    refine ⟨mkStats [m], getStatistics_eq_some rfl hcr, ?_, ?_⟩ <;>
      simp [mkStats, hof]

/-- A found response rated exactly `"9.0"`. -/
def excellentResponse : OmdbResponse :=
  { Title := some "Excellent Movie", Genre := some "Drama",
    Year := some "2001", Plot := some "p", imdbRating := some "9.0",
    imdbVotes := some "10", Director := some "D", Actors := some "A",
    Runtime := some "100 min", BoxOffice := some "N/A", Poster := some "",
    Metascore := some "90", imdbID := some "tt0000001" }

/-- Witness for C4: the concrete found record rated `"9.0"` counts once in
the `'Excellent (9-10)'` bucket. -/
theorem getStatistics_rating_buckets_witness :
    ∃ s, getStatistics [get_movie_data "Excellent Movie"
        (some excellentResponse)] = some s ∧
      s.rating_categories = ⟨1, 0, 0, 0, 0⟩ ∧ s.rating_data = [9] ∧
      s.total_ratings = 1 :=
  (getStatistics_rating_buckets
    (get_movie_data "Excellent Movie" (some excellentResponse))
    (by decide)).1 rfl

/-- C5 (amended): `get_statistics` computes the success rate as
found divided by total, times 100; but on an *empty* batch it does not
yield a success rate of 0 — the early `return {}` (line 72–73) produces
the empty dict, so no `success_rate` entry exists at all (the
`if total_movies > 0 else 0` guard of line 124 is unreachable). -/
theorem getStatistics_success_rate :
    getStatistics [] = none ∧
    ∀ (l : List MovieRecord), l ≠ [] → topRatedCrash l = false →
      ∃ s, getStatistics l = some s ∧
        s.success_rate =
          ((l.filter (fun m => m.source != "Not Found")).length : ℚ) /
            l.length * 100 ∧
        s.total_movies = l.length ∧
        s.found_movies =
          (l.filter (fun m => m.source != "Not Found")).length := by
  constructor
  · rfl
  · intro l hne hcr
    have h1 : l.isEmpty = false := by
      cases l with
      | nil => exact absurd rfl hne
      | cons a t => rfl
    refine ⟨mkStats l, getStatistics_eq_some h1 hcr, ?_, rfl, rfl⟩
    have hpos : 0 < l.length := List.length_pos.mpr hne
    simp [mkStats, hpos]

/-- C5 as stated is false at the empty batch: `get_statistics` returns the
empty dict (modelled `none`), so it does not yield any statistics object —
in particular no success rate of 0. -/
theorem getStatistics_empty_counterexample :
    ¬ ∃ s, getStatistics [] = some s := by
  simp [getStatistics]

/-- Witness for C5 (amended) on a one-record batch whose single lookup
failed: total 1, found 0. -/
theorem getStatistics_success_rate_witness :
    ∃ s, getStatistics [get_movie_data "Zzz" none] = some s ∧
      s.success_rate =
        ((([get_movie_data "Zzz" none] : List MovieRecord).filter
            (fun m => m.source != "Not Found")).length : ℚ) /
          ([get_movie_data "Zzz" none] : List MovieRecord).length * 100 ∧
      s.total_movies = ([get_movie_data "Zzz" none] : List MovieRecord).length ∧
      s.found_movies =
        (([get_movie_data "Zzz" none] : List MovieRecord).filter
          (fun m => m.source != "Not Found")).length :=
  getStatistics_success_rate.2 [get_movie_data "Zzz" none] (by decide) (by decide)

/-- Witness for C9 on a concrete two-title batch: the found record is
persisted, and the not-found placeholder — though appended — is not. -/
theorem classify_movies_persists_iff_found_witness :
    (Event.persisted (classifiedRecord demoProvider "The Matrix") ∈
        (classify_movies demoProvider
          ["The Matrix", "Zzznonexistentmovie123"]).events ↔
      (Event.appended (classifiedRecord demoProvider "The Matrix") ∈
          (classify_movies demoProvider
            ["The Matrix", "Zzznonexistentmovie123"]).events ∧
        (classifiedRecord demoProvider "The Matrix").source ≠ "Not Found")) ∧
    (Event.persisted (classifiedRecord demoProvider "Zzznonexistentmovie123") ∈
        (classify_movies demoProvider
          ["The Matrix", "Zzznonexistentmovie123"]).events ↔
      (Event.appended (classifiedRecord demoProvider "Zzznonexistentmovie123") ∈
          (classify_movies demoProvider
            ["The Matrix", "Zzznonexistentmovie123"]).events ∧
        (classifiedRecord demoProvider
          "Zzznonexistentmovie123").source ≠ "Not Found")) :=
  ⟨classify_movies_persists_iff_found demoProvider
      ["The Matrix", "Zzznonexistentmovie123"]
      (classifiedRecord demoProvider "The Matrix"),
   classify_movies_persists_iff_found demoProvider
      ["The Matrix", "Zzznonexistentmovie123"]
      (classifiedRecord demoProvider "Zzznonexistentmovie123")⟩
